import Mathlib

/-! # elm-ide: the neovim bridge of `src/app/main.js`

A shallow embedding of the script that spawns `nvim --embed`, attaches the
`neovim-client` RPC session to its pipes, forwards the session's notifications
to the Elm application and relays the application's commands.

JavaScript values are modelled by `JSValue`: numbers are the safe integers,
objects are plain objects with data members, their field list in property
enumeration order.  Every callback of the script is a function on an
explicit `World`, which records what the callback did to its collaborators:
the values sent through the Elm `notifications` port, the calls issued on the
client object, the window title, and the listeners it registered.
-/

namespace ElmIde

/-! ## JavaScript values -/

/-- The safe integers, of magnitude below 2^53: the integers a JavaScript
number holds exactly, and which ToString and `JSON.stringify` write with all
their digits. -/
structure SafeInt where
  val : Int
  safe : val.natAbs < 2 ^ 53

/-- Numerals denote safe integers; like the numerals of the fixed-width
types, they wrap, here at 2^53. -/
instance (n : Nat) : OfNat SafeInt n :=
  ⟨⟨((n % 2 ^ 53 : Nat) : Int), by
    rw [Int.natAbs_ofNat]
    exact Nat.mod_lt n (by decide)⟩⟩

/-- The JavaScript values the bridge handles. -/
inductive JSValue where
  | undefined : JSValue
  | null : JSValue
  | bool (b : Bool) : JSValue
  | num (n : SafeInt) : JSValue
  | str (s : String) : JSValue
  | arr (items : List JSValue) : JSValue
  | obj (fields : List (String × JSValue)) : JSValue

/-- The errors a callback can throw. -/
inductive JSError where
  | typeError (msg : String) : JSError
  | referenceError (msg : String) : JSError
  | syntaxError (msg : String) : JSError
  deriving DecidableEq, Repr

mutual
/-- The string ToString gives for a value none of whose objects carries a
`toString` member of its own (`convertToString` has the other values).  The
script concatenates with it the `message` of the errors it is handed, which
Node and the client library create as strings. -/
def toJSString : JSValue → String
  | .undefined => "undefined"
  | .null => "null"
  | .bool true => "true"
  | .bool false => "false"
  | .num n => toString n.val
  | .str s => s
  | .arr items => ",".intercalate (joinItems items)
  | .obj _ => "[object Object]"
/-- The pieces `Array.prototype.join` puts between the separators: `null` and
`undefined` contribute the empty string. -/
def joinItems : List JSValue → List String
  | [] => []
  | .undefined :: rest => "" :: joinItems rest
  | .null :: rest => "" :: joinItems rest
  | v :: rest => toJSString v :: joinItems rest
end

mutual
/-- Whether ToString of the value returns.  A plain object answers through
`Object.prototype.toString` unless it has a member `toString` of its own: a
data member is not callable, and `valueOf` gives the object back, so the
conversion is a TypeError.  An array joins the conversions of its elements. -/
def hasStringForm : JSValue → Bool
  | .obj fields => !(fields.any fun f => f.1 = "toString")
  | .arr items => allHaveStringForm items
  | _ => true
/-- Whether every element the join converts has a string form; it converts
neither `null` nor `undefined`. -/
def allHaveStringForm : List JSValue → Bool
  | [] => true
  | v :: rest => hasStringForm v && allHaveStringForm rest
end

/-- The abstract operation ToString as a computed property key and the setter
of `document.title` perform it: a string, or the TypeError thrown. -/
def convertToString (v : JSValue) : Except JSError String :=
  if hasStringForm v then .ok (toJSString v)
  else .error (.typeError "Cannot convert object to primitive value")

/-- Lower-case hexadecimal digit. -/
def hexDigit (n : Nat) : Char :=
  if n < 10 then Char.ofNat (48 + n) else Char.ofNat (87 + n)

/-- How `JSON.stringify` writes one character of a string. -/
def escapeChar (c : Char) : String :=
  if c = '"' then "\\\""
  else if c = '\\' then "\\\\"
  else if c.toNat = 8 then "\\b"
  else if c.toNat = 12 then "\\f"
  else if c.toNat = 10 then "\\n"
  else if c.toNat = 13 then "\\r"
  else if c.toNat = 9 then "\\t"
  else if c.toNat < 32 then
    String.mk ['\\', 'u', '0', '0', hexDigit (c.toNat / 16), hexDigit (c.toNat % 16)]
  else String.singleton c

/-- The quoted form of a string in JSON text. -/
def quoteJSONString (s : String) : String :=
  "\"" ++ String.join (s.data.map escapeChar) ++ "\""

mutual
/-- The JSON text of a value, `none` where `JSON.stringify` yields `undefined`. -/
def jsonText : JSValue → Option String
  | .undefined => none
  | .null => some "null"
  | .bool true => some "true"
  | .bool false => some "false"
  | .num n => some (toString n.val)
  | .str s => some (quoteJSONString s)
  | .arr items => some ("[" ++ ",".intercalate (jsonItems items) ++ "]")
  | .obj fields => some ("\x7b" ++ ",".intercalate (jsonFields fields) ++ "\x7d")
/-- Array elements: an element without JSON text is written `null`. -/
def jsonItems : List JSValue → List String
  | [] => []
  | v :: rest => (jsonText v).getD "null" :: jsonItems rest
/-- Object members: a member whose value has no JSON text is left out. -/
def jsonFields : List (String × JSValue) → List String
  | [] => []
  | (k, v) :: rest =>
    match jsonText v with
    | none => jsonFields rest
    | some t => (quoteJSONString k ++ ":" ++ t) :: jsonFields rest
end

/-- The built-in `JSON.stringify(value)`. -/
def JSON.stringify (v : JSValue) : JSValue :=
  match jsonText v with
  | some t => .str t
  | none => .undefined

/-- The property read `v.key`, for the keys the script reads (`message`,
`command`, `data`, `columns`, `lines`); no built-in prototype defines one of
them, so a primitive or an array yields `undefined`. -/
def getProp (v : JSValue) (key : String) : Except JSError JSValue :=
  match v with
  | .undefined => .error (.typeError ("Cannot read property " ++ key ++ " of undefined"))
  | .null => .error (.typeError ("Cannot read property " ++ key ++ " of null"))
  | .obj fields => .ok ((fields.lookup key).getD .undefined)
  | _ => .ok .undefined

/-! ## The world the script acts on -/

/-- A call issued on the client object `api`. -/
inductive RpcCall where
  /-- The call `api.uiAttach(width, height, rgb, cb)`. -/
  | uiAttach (width height : JSValue) (rgb : Bool) : RpcCall
  /-- The call `api.command(text)`. -/
  | command (text : String) : RpcCall

/-- The three callbacks the script registers with `api.on`. -/
inductive ApiListener where
  | onRequest : ApiListener
  | onNotification : ApiListener
  | onDisconnect : ApiListener
  deriving DecidableEq, Repr

/-- The one callback the script registers with `nvim.on`. -/
inductive NvimListener where
  | onError : NvimListener
  deriving DecidableEq, Repr

/-- What a response handle `resp` was asked to send: the message id of the
request, the value, and whether the value is an error. -/
structure Reply where
  msgid : Nat
  value : JSValue
  isError : Bool

/-- Everything the script can observe or change. -/
structure World where
  /-- The processes started with `cp.spawn`, oldest first. -/
  spawned : List (String × List String)
  /-- The values passed to `app.ports.notifications.send`, oldest first. -/
  sent : List JSValue
  /-- The calls issued on `api`, oldest first. -/
  calls : List RpcCall
  /-- What was sent through the response handles of inbound requests. -/
  replies : List Reply
  /-- The title text of the document: what the page starts with, then the
  string last assigned to `document.title` (read back, the title comes with
  its white space stripped and collapsed). -/
  title : String
  /-- How often `electron.shell.beep()` ran. -/
  beeps : Nat
  /-- The listeners registered with `nvim.on`, in registration order. -/
  nvimListeners : List (String × NvimListener)
  /-- The listeners registered with `api.on`, in registration order. -/
  apiListeners : List (String × ApiListener)
  /-- The number of callbacks subscribed to `app.ports.command`. -/
  commandSubscribers : Nat

/-- The world before the script runs, with the given window title. -/
def World.initial (title : String) : World :=
  { spawned := [], sent := [], calls := [], replies := [], title := title, beeps := 0,
    nvimListeners := [], apiListeners := [], commandSubscribers := 0 }

/-- How a callback ends: the world it leaves and the error it threw, if any. -/
structure Outcome where
  world : World
  thrown : Option JSError

/-- Normal completion. -/
def Outcome.done (w : World) : Outcome := ⟨w, none⟩

/-- Abrupt completion: what was done before the throw stays done. -/
def Outcome.throw (w : World) (e : JSError) : Outcome := ⟨w, some e⟩

/-- Sequencing of statements: nothing runs after a throw. -/
def Outcome.andThen (o : Outcome) (next : World → Outcome) : Outcome :=
  match o.thrown with
  | some _ => o
  | none => next o.world

/-! ## The script -/

/-- The function `notify(method, name, data)` of lines 8 to 11.  The object
literal converts the computed key `[method]` first, then `[name]`; a key
without a string form is a TypeError and nothing is sent. -/
def notify (method name data : JSValue) (w : World) : Outcome :=
  match convertToString method with
  | .error e => .throw w e
  | .ok outer =>
    match convertToString name with
    | .error e => .throw w e
    | .ok inner =>
      let notification := JSValue.obj [(outer, .obj [(inner, data)])]
      .done { w with sent := w.sent ++ [JSON.stringify notification] }

/-- The identifiers bound at the top level of the script. -/
def declared : List String := ["cp", "elm", "neovim", "electron", "app", "notify", "nvim"]

/-- The call `ident(a, b, c)` of a three-argument call site: the identifier is
resolved first; `notify` is the only top-level binding that is a function, and
an identifier that is bound nowhere is a ReferenceError. -/
def callIdent (ident : String) (a b c : JSValue) (w : World) : Outcome :=
  if ident = "notify" then notify a b c w
  else if ident ∈ declared then .throw w (.typeError (ident ++ " is not a function"))
  else .throw w (.referenceError (ident ++ " is not defined"))

/-- The listener of lines 15 to 17, `nvim.on('error', (err) => ...)`.  The
concatenation converts `err.message` with `toJSString`: Node hands the
listener an Error, whose message is a string. -/
def onSpawnError (err : JSValue) (w : World) : Outcome :=
  match getProp err "message" with
  | .error e => .throw w e
  | .ok message =>
    callIdent "notify" (.str "system") (.str "error")
      (.str ("Failed to spawn neovim process: " ++ toJSString message)) w

/-- The listener of lines 24 and 25, `api.on('request', (method, args, resp) => {})`:
the body is empty. -/
def onRequest (_method : JSValue) (_args : List JSValue) (_resp : Nat) (w : World) : Outcome :=
  .done w

/-- One round of the `forEach` body of lines 28 to 31: `data.shift()` takes
the first element off the array (`undefined` when it is empty), and only an
array has a `shift`. -/
def forwardEvent (method data : JSValue) (w : World) : Outcome :=
  match data with
  | .arr [] => callIdent "notify" method .undefined (.arr []) w
  | .arr (name :: rest) => callIdent "notify" method name (.arr rest) w
  | .undefined => .throw w (.typeError "Cannot read property shift of undefined")
  | .null => .throw w (.typeError "Cannot read property shift of null")
  | _ => .throw w (.typeError "data.shift is not a function")

/-- The listener of lines 27 to 32, `api.on('notification', (method, args) => ...)`:
`args.forEach` visits the elements in order and stops at the first throw. -/
def onNotification (method : JSValue) (args : List JSValue) (w : World) : Outcome :=
  match args with
  | [] => .done w
  | data :: rest => (forwardEvent method data w).andThen (onNotification method rest)

/-- The listener of lines 34 to 36, `api.on('disconnect', () => ...)`: it calls
the identifier `notifiy`. -/
def onDisconnect (w : World) : Outcome :=
  callIdent "notifiy" (.str "system") (.str "disconnect")
    (.str "RPC connection to neovim was lost") w

/-- The callback of lines 43 to 47 handed to `api.uiAttach`: `err != null` is
false for `null` and for `undefined` only.  The concatenation converts
`err.message` with `toJSString`: the client hands the callback an Error,
whose message is a string. -/
def onAttachResult (err : JSValue) (w : World) : Outcome :=
  match err with
  | .null => .done w
  | .undefined => .done w
  | _ =>
    match getProp err "message" with
    | .error e => .throw w e
    | .ok message =>
      callIdent "notify" (.str "system") (.str "error")
        (.str ("Failed to attach to neovim UI: " ++ toJSString message)) w

/-- The `switch (command)` of lines 41 to 58; the cases compare with `===`, so
only a string can match, and there is no default case.  The setter of
`document.title` converts the data to a string, which can throw. -/
def dispatch (command data : JSValue) (w : World) : Outcome :=
  match command with
  | .str c =>
    if c = "attach" then
      match getProp data "columns" with
      | .error e => .throw w e
      | .ok columns =>
        match getProp data "lines" with
        | .error e => .throw w e
        | .ok lines =>
          .done { w with calls := w.calls ++
            [.uiAttach columns lines true, .command "doautocmd <nomodeline> GUIEnter"] }
    else if c = "set-title" then
      match convertToString data with
      | .error e => .throw w e
      | .ok text => .done { w with title := text }
    else if c = "bell" then .done { w with beeps := w.beeps + 1 }
    else .done w
  | _ => .done w

/-- The subscriber of lines 39 to 59, `app.ports.command.subscribe(message => ...)`.
The message is given by what `JSON.parse(message)` yields: a value, or the
SyntaxError it throws.  Destructuring `null` or `undefined` is a TypeError. -/
def onCommand (parsed : Except JSError JSValue) (w : World) : Outcome :=
  match parsed with
  | .error e => .throw w e
  | .ok v =>
    match getProp v "command" with
    | .error e => .throw w e
    | .ok command =>
      match getProp v "data" with
      | .error e => .throw w e
      | .ok data => dispatch command data w

/-- The second argument of the connection callback: the client object, or
`undefined`. -/
inductive ApiArg where
  | undefined : ApiArg
  | client : ApiArg
  deriving DecidableEq, Repr

/-- The connection callback of lines 19 to 62, `(err, api) => ...`.  The test
`err !== null` is false for `null` only; nothing leaves the callback between
the error report and the registrations, and `api.on` needs `api` to be the
client object.  The concatenation converts `err.message` with `toJSString`:
the message of the error the client hands over is a string or is missing. -/
def onConnect (err : JSValue) (api : ApiArg) (w : World) : Outcome :=
  let reported : Outcome :=
    match err with
    | .null => .done w
    | _ =>
      match getProp err "message" with
      | .error e => .throw w e
      | .ok message =>
        callIdent "notify" (.str "system") (.str "error")
          (.str ("Failed to establish RPC connection to neovim: " ++ toJSString message)) w
  reported.andThen fun w1 =>
    match api with
    | .undefined => .throw w1 (.typeError "Cannot read property on of undefined")
    | .client =>
      let w2 : World :=
        { w1 with
          apiListeners := w1.apiListeners ++
            [("request", .onRequest), ("notification", .onNotification),
             ("disconnect", .onDisconnect)],
          commandSubscribers := w1.commandSubscribers + 1 }
      callIdent "notify" (.str "system") (.str "ready")
        (.str "RPC connection to neovim is ready") w2

/-- The top level of the script up to the call of `neovim(...)`: it spawns the
editor and registers the one listener on the child process. -/
def main (w : World) : World :=
  { w with
    spawned := w.spawned ++ [("nvim", ["--embed"])],
    nvimListeners := w.nvimListeners ++ [("error", .onError)] }

/-! ## Events delivered by the collaborators -/

/-- An event of the child process `nvim`, with the arguments it passes. -/
inductive NvimEvent where
  /-- The process could not be spawned: `'error'` with the error. -/
  | error (err : JSValue) : NvimEvent
  /-- The process ended: `'exit'` with the exit code and the signal. -/
  | exit (code signal : JSValue) : NvimEvent

/-- The name under which listeners of the event are registered. -/
def NvimEvent.name : NvimEvent → String
  | .error _ => "error"
  | .exit _ _ => "exit"

/-- The first argument the event passes to a listener. -/
def NvimEvent.firstArg : NvimEvent → JSValue
  | .error err => err
  | .exit code _ => code

/-- Runs one listener of the child process on an event. -/
def NvimListener.run : NvimListener → NvimEvent → World → Outcome
  | .onError, ev, w => onSpawnError ev.firstArg w

/-- Calls the given listeners in order; a throw ends the round. -/
def runAll {L E : Type} (run : L → E → World → Outcome) (ev : E) :
    List L → World → Outcome
  | [], w => .done w
  | l :: rest, w => (run l ev w).andThen (runAll run ev rest)

/-- The child process emits an event: the listeners registered under its name
run in registration order. -/
def nvimEmit (ev : NvimEvent) (w : World) : Outcome :=
  runAll NvimListener.run ev
    ((w.nvimListeners.filter fun p => p.1 = ev.name).map Prod.snd) w

/-- An event of the RPC client `api`, with the arguments it passes. -/
inductive ApiEvent where
  /-- An inbound request: method, arguments, and the response handle, which
  carries the message id of the request. -/
  | request (method : JSValue) (args : List JSValue) (msgid : Nat) : ApiEvent
  /-- An inbound notification: method and arguments. -/
  | notification (method : JSValue) (args : List JSValue) : ApiEvent
  /-- The connection was lost. -/
  | disconnect : ApiEvent

/-- The name under which listeners of the event are registered. -/
def ApiEvent.name : ApiEvent → String
  | .request _ _ _ => "request"
  | .notification _ _ => "notification"
  | .disconnect => "disconnect"

/-- Runs one listener of the client on an event; a listener reads the
arguments by position, and `disconnect` passes none. -/
def ApiListener.run : ApiListener → ApiEvent → World → Outcome
  | .onRequest, .request method args msgid, w => ElmIde.onRequest method args msgid w
  | .onRequest, _, w => .done w
  | .onNotification, .request method args _, w => ElmIde.onNotification method args w
  | .onNotification, .notification method args, w => ElmIde.onNotification method args w
  | .onNotification, .disconnect, w =>
    .throw w (.typeError "Cannot read property forEach of undefined")
  | .onDisconnect, _, w => ElmIde.onDisconnect w

/-- The client emits an event: the listeners registered under its name run in
registration order. -/
def apiEmit (ev : ApiEvent) (w : World) : Outcome :=
  runAll ApiListener.run ev
    ((w.apiListeners.filter fun p => p.1 = ev.name).map Prod.snd) w

/-- The Elm application sends a message through the `command` port: every
subscriber runs on it. -/
def portCommand (parsed : Except JSError JSValue) (w : World) : Outcome :=
  runAll (fun (_ : Unit) p w1 => onCommand p w1) parsed
    (List.replicate w.commandSubscribers ()) w

/-- The world once the script has run and the connection callback has been
called with the client and no error. -/
def connected (title : String) : World :=
  (onConnect .null .client (main (World.initial title))).world

/-! ## The RPC session behind `neovim(...)` -/

/-- Modelled from the spec: the Session State of section 3, one of Connecting,
Ready and Closed.  The session is what `neovim(nvim.stdin, nvim.stdout, ...)`
of line 19 creates; its code, the client library, is not under src/. -/
inductive SessionState where
  | connecting : SessionState
  | ready : SessionState
  | closed : SessionState
  deriving DecidableEq, Repr

/-- Modelled from the spec: a Request of section 3, with its id, method and
ordered parameters. -/
structure Request where
  id : Nat
  method : String
  params : List JSValue

/-- Modelled from the spec: the RPC session of section 4.2, with the
monotonic counter from which `call` takes request ids, the Outstanding Call
Table (the ids of the pending handles), the Requests sent so far, oldest
first, and the protocol warnings reported. -/
structure Session where
  state : SessionState
  counter : Nat
  outstanding : List Nat
  requests : List Request
  warnings : Nat

/-- Modelled from the spec: a session that has just been created. -/
def Session.fresh : Session :=
  { state := .connecting, counter := 0, outstanding := [], requests := [], warnings := 0 }

/-- Modelled from the spec: what happens on a session, in the order the
dispatch loop sees it: a `call`, the arrival of a Response, the end of the
handshake, and the close of the transport. -/
inductive SessionOp where
  | call (method : String) (params : List JSValue) : SessionOp
  | response (id : Nat) : SessionOp
  | handshake : SessionOp
  | close : SessionOp

/-- Modelled from the spec: the failure of a `call` on a closed session. -/
inductive CallError where
  | sessionClosed : CallError
  deriving DecidableEq, Repr

/-- Modelled from the spec: `call(method, params)` of section 4.2 allocates a
fresh id from the monotonic counter, registers a pending handle in the
Outstanding Call Table and sends a Request; the result is the id of the handle
and the session after the call.  On a closed session it fails with
`SessionClosed`. -/
def Session.call (s : Session) (method : String) (params : List JSValue) :
    Except CallError (Nat × Session) :=
  match s.state with
  | .closed => .error .sessionClosed
  | _ =>
    .ok (s.counter,
      { s with
        counter := s.counter + 1,
        outstanding := s.counter :: s.outstanding,
        requests := s.requests ++ [{ id := s.counter, method := method, params := params }] })

/-- Modelled from the spec: one step of the session of section 4.2.  A failed
call leaves the session as it is.  A Response with the id of an outstanding
call resolves and removes its entry, any other Response is a protocol warning;
the handshake turns Connecting into Ready; termination closes the session and
resolves every pending handle. -/
def Session.step (s : Session) : SessionOp → Session
  | .call method params =>
    match s.call method params with
    | .ok (_, s1) => s1
    | .error _ => s
  | .response id =>
    if id ∈ s.outstanding then { s with outstanding := s.outstanding.erase id }
    else { s with warnings := s.warnings + 1 }
  | .handshake =>
    match s.state with
    | .connecting => { s with state := .ready }
    | _ => s
  | .close => { s with state := .closed, outstanding := [] }

/-- Modelled from the spec: the session after a sequence of operations; calls
made while earlier ones are outstanding are the concurrent calls. -/
def Session.run (s : Session) : List SessionOp → Session
  | [] => s
  | op :: rest => (s.step op).run rest

/-- The ids of the Requests a session has sent, oldest first. -/
def Session.assignedIds (s : Session) : List Nat :=
  s.requests.map Request.id

/-- The message the spec describes for a notification: an object with the
three members `scope`, `name` and `payload`, as JSON text. -/
def specMessage (scope name payload : JSValue) : JSValue :=
  JSON.stringify (.obj [("scope", scope), ("name", name), ("payload", payload)])

/-- The message `notify(method, name, data)` sends: the JSON text of the
object whose one member, keyed by the method, is the object whose one member,
keyed by the name, is the data. -/
def nestedMessage (method name data : JSValue) : JSValue :=
  JSON.stringify (.obj [(toJSString method, .obj [(toJSString name, data)])])

/-- The parsed command message `{command: c, data: d}`. -/
def commandMessage (c : String) (d : JSValue) : JSValue :=
  .obj [("command", .str c), ("data", d)]

/-- The data of an attach command, `{columns: c, lines: l}`. -/
def attachData (c l : JSValue) : JSValue :=
  .obj [("columns", c), ("lines", l)]

/-- The ids assigned so far are distinct and below the counter. -/
def Session.Fresh (s : Session) : Prop :=
  s.assignedIds.Nodup ∧ ∀ id ∈ s.assignedIds, id < s.counter

/-! ## Basic facts -/

theorem callIdent_notify (a b c : JSValue) (w : World) :
    callIdent "notify" a b c w = notify a b c w := by
  simp [callIdent]

theorem convertToString_str (s : String) : convertToString (.str s) = .ok s := rfl

/-- With keys that have a string form, `notify` sends its one message. -/
theorem notify_convertible (m name d : JSValue) (w : World)
    (hm : hasStringForm m = true) (hn : hasStringForm name = true) :
    notify m name d w = .done { w with sent := w.sent ++ [nestedMessage m name d] } := by
  simp [notify, convertToString, hm, hn, nestedMessage]

theorem notify_str (m name : String) (d : JSValue) (w : World) :
    notify (.str m) (.str name) d w =
      .done { w with sent := w.sent ++ [JSON.stringify (.obj [(m, .obj [(name, d)])])] } :=
  rfl

theorem andThen_done (w : World) (next : World → Outcome) :
    (Outcome.done w).andThen next = next w := rfl

theorem andThen_finish (o : Outcome) : o.andThen Outcome.done = o := by
  obtain ⟨w, thrown⟩ := o
  cases thrown <;> rfl

/-- The notification listener on a list of non-empty events whose names have
a string form: one message per event, appended in order. -/
theorem onNotification_events (m : JSValue) (events : List (JSValue × List JSValue))
    (w : World) (hm : hasStringForm m = true)
    (hn : ∀ e ∈ events, hasStringForm e.1 = true) :
    onNotification m (events.map fun e => .arr (e.1 :: e.2)) w =
      .done { w with sent := w.sent ++ events.map fun e => nestedMessage m e.1 (.arr e.2) } := by
  induction events generalizing w with
  | nil => simp [onNotification]
  | cons e rest ih =>
    have he : hasStringForm e.1 = true := hn e (List.mem_cons_self _ _)
    have hrest : ∀ x ∈ rest, hasStringForm x.1 = true :=
      fun x hx => hn x (List.mem_cons_of_mem _ hx)
    simp only [List.map_cons, onNotification, forwardEvent, callIdent_notify,
      notify_convertible m e.1 _ w hm he, andThen_done]
    rw [ih _ hrest]
    simp [List.append_assoc]

/-- The notification listener on events named by strings. -/
theorem onNotification_named (m : String) (events : List (String × List JSValue))
    (w : World) :
    onNotification (.str m) (events.map fun e => .arr (.str e.1 :: e.2)) w =
      .done { w with
        sent := w.sent ++
          events.map fun e => JSON.stringify (.obj [(m, .obj [(e.1, .arr e.2)])]) } := by
  have h := onNotification_events (.str m) (events.map fun e => (JSValue.str e.1, e.2)) w rfl
    (by
      intro e he
      rw [List.mem_map] at he
      obtain ⟨x, _, rfl⟩ := he
      rfl)
  simpa [List.map_map, Function.comp_def, nestedMessage, toJSString] using h

theorem connected_apiListeners (t : String) :
    (connected t).apiListeners =
      [("request", .onRequest), ("notification", .onNotification),
       ("disconnect", .onDisconnect)] := rfl

theorem apiEmit_notification_connected (t : String) (m : JSValue) (args : List JSValue) :
    apiEmit (.notification m args) (connected t) = onNotification m args (connected t) := by
  simp only [apiEmit, connected_apiListeners, ApiEvent.name]
  exact andThen_finish _

theorem apiEmit_request_connected (t : String) (m : JSValue) (args : List JSValue)
    (msgid : Nat) :
    apiEmit (.request m args msgid) (connected t) = onRequest m args msgid (connected t) := by
  simp only [apiEmit, connected_apiListeners, ApiEvent.name]
  exact andThen_finish _

theorem apiEmit_disconnect_connected (t : String) :
    apiEmit .disconnect (connected t) = onDisconnect (connected t) := by
  simp only [apiEmit, connected_apiListeners, ApiEvent.name]
  exact andThen_finish _

theorem connected_sent (t : String) :
    (connected t).sent =
      [nestedMessage (.str "system") (.str "ready") (.str "RPC connection to neovim is ready")] :=
  rfl

/-! ## C1 and C10: forwarding of the notifications of the subprocess -/

/-- C1, as stated, fails: for the notification `redraw` with the event
`["line", 1, 2]` the bridge sends the text `{"redraw":{"line":[1,2]}}`, and it
sends no message with the members `scope`, `name` and `payload`. -/
theorem redraw_line_message_is_nested :
    (apiEmit (.notification (.str "redraw") [.arr [.str "line", .num 1, .num 2]])
        (connected "")).world.sent =
      [.str "\x7b\"system\":\x7b\"ready\":\"RPC connection to neovim is ready\"\x7d\x7d",
       .str "\x7b\"redraw\":\x7b\"line\":[1,2]\x7d\x7d"] ∧
    specMessage (.str "redraw") (.str "line") (.arr [.num 1, .num 2]) =
      .str "\x7b\"scope\":\"redraw\",\"name\":\"line\",\"payload\":[1,2]\x7d" ∧
    specMessage (.str "redraw") (.str "line") (.arr [.num 1, .num 2]) ∉
      (apiEmit (.notification (.str "redraw") [.arr [.str "line", .num 1, .num 2]])
        (connected "")).world.sent := by
  refine ⟨rfl, rfl, ?_⟩
  have h : (apiEmit (.notification (.str "redraw") [.arr [.str "line", .num 1, .num 2]])
        (connected "")).world.sent =
      [.str "\x7b\"system\":\x7b\"ready\":\"RPC connection to neovim is ready\"\x7d\x7d",
       .str "\x7b\"redraw\":\x7b\"line\":[1,2]\x7d\x7d"] := rfl
  have g : specMessage (.str "redraw") (.str "line") (.arr [.num 1, .num 2]) =
      .str "\x7b\"scope\":\"redraw\",\"name\":\"line\",\"payload\":[1,2]\x7d" := rfl
  rw [h, g]
  simp only [List.mem_cons, JSValue.str.injEq, List.mem_nil_iff, or_false, not_or]
  exact ⟨by decide, by decide⟩

/-- C1, amended: for every inbound notification whose method is the string
`m`, carrying one event `[name, a1, ..., ak]` whose name is a string, the
listener completes and sends exactly one message through the notification
port, the JSON text of the nested object `{m: {name: [a1, ..., ak]}}`; for
`redraw` with `["line", 1, 2]` the message is the text
`{"redraw":{"line":[1,2]}}`. -/
theorem notification_event_sends_nested_message :
    (∀ (t m name : String) (rest : List JSValue),
      apiEmit (.notification (.str m) [.arr (.str name :: rest)]) (connected t) =
        .done { connected t with
          sent := (connected t).sent ++
            [JSON.stringify (.obj [(m, .obj [(name, .arr rest)])])] }) ∧
    (∀ t : String,
      (apiEmit (.notification (.str "redraw") [.arr [.str "line", .num 1, .num 2]])
        (connected t)).world.sent =
      (connected t).sent ++ [.str "\x7b\"redraw\":\x7b\"line\":[1,2]\x7d\x7d"]) := by
  constructor
  · intro t m name rest
    rw [apiEmit_notification_connected]
    exact onNotification_named m [(name, rest)] (connected t)
  · intro t
    rfl

/-- C10, as stated, fails: the notification `redraw` with the one event
`[{"toString": 1}, 1]`, a non-empty array, makes the listener throw a TypeError
at the computed key; no message is sent for the event, and what was sent stays
the one ready notification. -/
theorem event_without_key_sends_nothing :
    apiEmit (.notification (.str "redraw") [.arr [.obj [("toString", .num 1)], .num 1]])
        (connected "") =
      .throw (connected "") (.typeError "Cannot convert object to primitive value") ∧
    (apiEmit (.notification (.str "redraw") [.arr [.obj [("toString", .num 1)], .num 1]])
        (connected "")).world.sent =
      [.str "\x7b\"system\":\x7b\"ready\":\"RPC connection to neovim is ready\"\x7d\x7d"] :=
  ⟨rfl, rfl⟩

/-- C10, amended: for every inbound notification whose method is the string
`m` and whose argument list holds the events `e1, ..., en`, each a non-empty
array whose first element is a string, the listener completes and appends
exactly `n` messages to what was sent, in the order of the events, the i-th
being the JSON text of `{m: {first element of ei: rest of ei}}`; for an empty
argument list it sends nothing. -/
theorem notification_sends_one_message_per_event :
    (∀ (t m : String) (events : List (String × List JSValue)),
      apiEmit (.notification (.str m) (events.map fun e => .arr (.str e.1 :: e.2)))
          (connected t) =
        .done { connected t with
          sent := (connected t).sent ++
            events.map fun e => JSON.stringify (.obj [(m, .obj [(e.1, .arr e.2)])]) }) ∧
    (∀ (t m : String) (events : List (String × List JSValue)),
      (apiEmit (.notification (.str m) (events.map fun e => .arr (.str e.1 :: e.2)))
        (connected t)).world.sent.length = (connected t).sent.length + events.length) ∧
    (∀ (t : String) (m : JSValue),
      apiEmit (.notification m []) (connected t) = .done (connected t)) := by
  refine ⟨?_, ?_, ?_⟩
  · intro t m events
    rw [apiEmit_notification_connected]
    exact onNotification_named m events (connected t)
  · intro t m events
    rw [apiEmit_notification_connected, onNotification_named]
    simp [Outcome.done]
  · intro t m
    rw [apiEmit_notification_connected]
    rfl

/-! ## C2, C7 and C8: the commands of the application -/

theorem onCommand_message (c : String) (d : JSValue) (w : World) :
    onCommand (.ok (commandMessage c d)) w = dispatch (.str c) d w := by
  simp [onCommand, commandMessage, getProp, List.lookup]

theorem dispatch_attach (c l : JSValue) (w : World) :
    dispatch (.str "attach") (attachData c l) w =
      .done { w with calls := w.calls ++
        [.uiAttach c l true, .command "doautocmd <nomodeline> GUIEnter"] } := by
  simp [dispatch, attachData, getProp, List.lookup]

theorem dispatch_attach_sent (d : JSValue) (w : World) :
    (dispatch (.str "attach") d w).world.sent = w.sent := by
  simp only [dispatch, if_true]
  cases h1 : getProp d "columns" with
  | error e => rfl
  | ok columns =>
    cases h2 : getProp d "lines" with
    | error e => rfl
    | ok lines => rfl

theorem onAttachResult_error (err : JSValue) (e : JSValue) (w : World)
    (hn : err ≠ .null) (hu : err ≠ .undefined) (h : getProp err "message" = .ok e) :
    onAttachResult err w =
      .done { w with sent := w.sent ++
        [JSON.stringify (.obj [("system",
          .obj [("error", .str ("Failed to attach to neovim UI: " ++ toJSString e))])])] } := by
  cases err <;> simp_all [onAttachResult, callIdent_notify, notify_str]

/-- Called with an error that is a plain string, the callback of the attach
call reads no message from it. -/
theorem onAttachResult_string (e : String) (w : World) :
    onAttachResult (.str e) w =
      .done { w with sent := w.sent ++
        [JSON.stringify (.obj [("system",
          .obj [("error", .str "Failed to attach to neovim UI: undefined")])])] } :=
  rfl

theorem getProp_defined (v : JSValue) (key : String)
    (hn : v ≠ .null) (hu : v ≠ .undefined) : ∃ r, getProp v key = .ok r := by
  cases v <;> simp_all [getProp]

/-- C2: when the application sends the attach command and the attach call is
answered with an error whose message is `e`, the callback completes and sends
exactly one message, the system/error notification whose payload is the string
"Failed to attach to neovim UI: " followed by `e`. -/
theorem attach_error_is_reported (c l err : JSValue) (e : String) (w : World)
    (h : getProp err "message" = .ok (.str e)) :
    onAttachResult err (onCommand (.ok (commandMessage "attach" (attachData c l))) w).world =
      .done { w with
        calls := w.calls ++
          [.uiAttach c l true, .command "doautocmd <nomodeline> GUIEnter"],
        sent := w.sent ++
          [JSON.stringify (.obj [("system",
            .obj [("error", .str ("Failed to attach to neovim UI: " ++ e))])])] } := by
  rw [onCommand_message, dispatch_attach]
  have hn : err ≠ .null := by rintro rfl; simp [getProp] at h
  have hu : err ≠ .undefined := by rintro rfl; simp [getProp] at h
  rw [onAttachResult_error err (.str e) _ hn hu h]
  rfl

/-- C2 at the error message "bad size" with 80 columns and 24 lines: the one
message sent is the text `{"system":{"error":"Failed to attach to neovim UI: bad size"}}`. -/
theorem attach_error_is_reported_witness :
    getProp (.obj [("message", .str "bad size")]) "message" = .ok (.str "bad size") ∧
    (onAttachResult (.obj [("message", .str "bad size")])
        (onCommand (.ok (commandMessage "attach" (attachData (.num 80) (.num 24))))
          (World.initial "")).world).world.sent =
      [.str "\x7b\"system\":\x7b\"error\":\"Failed to attach to neovim UI: bad size\"\x7d\x7d"] :=
  ⟨rfl, by
    rw [attach_error_is_reported (.num 80) (.num 24) (.obj [("message", .str "bad size")])
      "bad size" (World.initial "") rfl]
    rfl⟩

theorem done_sent_ne (x : JSValue) (w : World) :
    Outcome.done { w with sent := w.sent ++ [x] } ≠ Outcome.done w := by
  intro h
  have hlen := congrArg (fun o => o.world.sent.length) h
  simp [Outcome.done] at hlen

/-- C7: the callback of the attach call sends a notification exactly when it
receives an error.  With `null` or `undefined` it completes and leaves the
world as it is, and only then; with any other value it completes and sends
exactly one system/error notification, and only then.  The attach command
itself sends no notification, whatever its data. -/
theorem attach_notifies_iff_error (err : JSValue) (w : World) :
    ((err = .null ∨ err = .undefined) ↔ onAttachResult err w = .done w) ∧
    ((err ≠ .null ∧ err ≠ .undefined) ↔
      ∃ text : String, onAttachResult err w =
        .done { w with sent := w.sent ++
          [JSON.stringify (.obj [("system", .obj [("error", .str text)])])] }) ∧
    (∀ d : JSValue, (onCommand (.ok (commandMessage "attach" d)) w).world.sent = w.sent) := by
  have key : err ≠ .null → err ≠ .undefined →
      ∃ text : String, onAttachResult err w =
        .done { w with sent := w.sent ++
          [JSON.stringify (.obj [("system", .obj [("error", .str text)])])] } := by
    intro hn hu
    obtain ⟨r, hr⟩ := getProp_defined err "message" hn hu
    exact ⟨_, onAttachResult_error err r w hn hu hr⟩
  refine ⟨⟨?_, ?_⟩, ⟨?_, ?_⟩, ?_⟩
  · rintro (rfl | rfl) <;> rfl
  · intro h
    by_contra hc
    push_neg at hc
    obtain ⟨text, ht⟩ := key hc.1 hc.2
    rw [ht] at h
    exact done_sent_ne _ _ h
  · rintro ⟨hn, hu⟩
    exact key hn hu
  · rintro ⟨text, ht⟩
    constructor
    · rintro rfl
      exact done_sent_ne _ w ht.symm
    · rintro rfl
      exact done_sent_ne _ w ht.symm
  · intro d
    rw [onCommand_message]
    exact dispatch_attach_sent d w

theorem dispatch_set_title_keeps (d : JSValue) (w : World) :
    (dispatch (.str "set-title") d w).world.calls = w.calls ∧
    (dispatch (.str "set-title") d w).world.sent = w.sent := by
  have h1 : ("set-title" = "attach") = False := by decide
  simp only [dispatch, h1, if_false, if_true]
  cases convertToString d with
  | error e => exact ⟨rfl, rfl⟩
  | ok text => exact ⟨rfl, rfl⟩

/-- C8: dispatch of the parsed command messages `{command, data}`.  For
`attach` with data `{columns: c, lines: l}` the subscriber issues exactly one
UI attach call, with width `c` and height `l` (followed by the `GUIEnter`
editor command), and sends no notification; for `set-title` with a string as
data it only assigns the string to the window title, and whatever the data it
issues no call and sends no notification; for `bell` it only beeps; for every
other command string it leaves the world as it is. -/
theorem command_dispatch :
    (∀ (c l : JSValue) (w : World),
      onCommand (.ok (commandMessage "attach" (attachData c l))) w =
        .done { w with calls := w.calls ++
          [.uiAttach c l true, .command "doautocmd <nomodeline> GUIEnter"] }) ∧
    (∀ (title : String) (w : World),
      onCommand (.ok (commandMessage "set-title" (.str title))) w =
        .done { w with title := title }) ∧
    (∀ (d : JSValue) (w : World),
      (onCommand (.ok (commandMessage "set-title" d)) w).world.calls = w.calls ∧
      (onCommand (.ok (commandMessage "set-title" d)) w).world.sent = w.sent) ∧
    (∀ (d : JSValue) (w : World),
      onCommand (.ok (commandMessage "bell" d)) w = .done { w with beeps := w.beeps + 1 }) ∧
    (∀ (c : String) (d : JSValue) (w : World),
      c ≠ "attach" → c ≠ "set-title" → c ≠ "bell" →
      onCommand (.ok (commandMessage c d)) w = .done w) := by
  refine ⟨?_, ?_, ?_, ?_, ?_⟩
  · intro c l w
    rw [onCommand_message, dispatch_attach]
  · intro title w
    rw [onCommand_message]
    simp [dispatch, convertToString_str]
  · intro d w
    rw [onCommand_message]
    exact dispatch_set_title_keeps d w
  · intro d w
    rw [onCommand_message]
    simp [dispatch]
  · intro c d w h1 h2 h3
    rw [onCommand_message]
    simp [dispatch, h1, h2, h3]

/-- C8 at the command `resize`, which the switch does not know: nothing is
called, nothing is sent, and the title stays. -/
theorem command_dispatch_witness :
    "resize" ≠ "attach" ∧ "resize" ≠ "set-title" ∧ "resize" ≠ "bell" ∧
    onCommand (.ok (commandMessage "resize" (.num 3))) (World.initial "elm-ide") =
      .done (World.initial "elm-ide") :=
  ⟨by decide, by decide, by decide,
    command_dispatch.2.2.2.2 "resize" (.num 3) (World.initial "elm-ide")
      (by decide) (by decide) (by decide)⟩

/-- The setter of `document.title` on data without a string form: the
assignment throws and the title stays. -/
theorem set_title_without_string_form (w : World) :
    onCommand (.ok (commandMessage "set-title" (.obj [("toString", .num 1)]))) w =
      .throw w (.typeError "Cannot convert object to primitive value") := by
  rw [onCommand_message]
  rfl

theorem portCommand_connected (t : String) (parsed : Except JSError JSValue) :
    portCommand parsed (connected t) = onCommand parsed (connected t) := by
  show (onCommand parsed (connected t)).andThen Outcome.done = _
  exact andThen_finish _

/-! ## C3 and C4: loss of the connection and inbound requests -/

/-- C3, on the code: when the client emits `disconnect` after a successful
connection, the listener throws the ReferenceError for `notifiy` and sends
nothing; what was sent stays the one ready notification. -/
theorem disconnect_listener_throws (t : String) :
    apiEmit .disconnect (connected t) =
      .throw (connected t) (.referenceError "notifiy is not defined") ∧
    (apiEmit .disconnect (connected t)).world.sent =
      [JSON.stringify (.obj [("system",
        .obj [("ready", .str "RPC connection to neovim is ready")])])] := by
  rw [apiEmit_disconnect_connected]
  exact ⟨by simp [onDisconnect, callIdent, declared], rfl⟩

/-- C4, as stated, fails: for the inbound request `ping` with message id 7,
for which the script has no handler, the bridge sends no response at all, so
none with the id 7 and no "method not found" error. -/
theorem request_gets_no_response :
    (apiEmit (.request (.str "ping") [] 7) (connected "")).world.replies = [] ∧
    (apiEmit (.request (.str "ping") [] 7) (connected "")).thrown = none ∧
    ¬ ∃ r ∈ (apiEmit (.request (.str "ping") [] 7) (connected "")).world.replies,
        r.msgid = 7 := by
  have h : (apiEmit (.request (.str "ping") [] 7) (connected "")).world.replies = [] := rfl
  refine ⟨rfl, rfl, ?_⟩
  rw [h]
  simp

/-- C4, amended: for every inbound request the request listener completes
and leaves the world as it is: it sends no response through the response
handle, sends no notification and issues no call. -/
theorem request_listener_does_nothing (t : String) (m : JSValue) (args : List JSValue)
    (msgid : Nat) :
    apiEmit (.request m args msgid) (connected t) = .done (connected t) ∧
    (apiEmit (.request m args msgid) (connected t)).world.replies = [] := by
  rw [apiEmit_request_connected]
  exact ⟨rfl, rfl⟩

/-! ## C5 and C6: the connection callback and the child process -/

/-- The text of a system/error notification differs from the text of the
ready notification, whatever the payload. -/
theorem error_message_ne_ready (text : String) :
    JSON.stringify (.obj [("system", .obj [("error", .str text)])]) ≠
      JSON.stringify (.obj [("system",
        .obj [("ready", .str "RPC connection to neovim is ready")])]) := by
  intro h
  simp only [JSON.stringify, jsonText, jsonFields, JSValue.str.injEq] at h
  have hd := congrArg String.data h
  have he : (escapeChar 'e').data = ['e'] := rfl
  have hr : (escapeChar 'r').data = ['r'] := rfl
  simp [quoteJSONString, String.intercalate, String.intercalate.go, he, hr] at hd

/-- C5: the client library calls the connection callback either with an
error alone or with `null` and the client object.  With an error whose
`message` is a string or is missing, the callback sends exactly one message,
the system/error notification, which is not the ready notification, and then
throws at `api.on`, so it never sends the ready notification; with `null` and
the client it completes, registers its listeners and sends exactly one
message, the ready notification, and no error notification. -/
theorem ready_only_on_successful_handshake :
    (∀ (err message : JSValue) (w : World),
      getProp err "message" = .ok message →
      (message = .undefined ∨ ∃ s : String, message = .str s) →
      onConnect err .undefined w =
          .throw { w with sent := w.sent ++
            [JSON.stringify (.obj [("system", .obj [("error",
              .str ("Failed to establish RPC connection to neovim: " ++
                toJSString message))])])] }
            (.typeError "Cannot read property on of undefined") ∧
        JSON.stringify (.obj [("system", .obj [("error",
            .str ("Failed to establish RPC connection to neovim: " ++
              toJSString message))])]) ≠
          JSON.stringify (.obj [("system",
            .obj [("ready", .str "RPC connection to neovim is ready")])])) ∧
    (∀ w : World,
      onConnect .null .client w =
        .done { w with
          apiListeners := w.apiListeners ++
            [("request", .onRequest), ("notification", .onNotification),
             ("disconnect", .onDisconnect)],
          commandSubscribers := w.commandSubscribers + 1,
          sent := w.sent ++
            [JSON.stringify (.obj [("system",
              .obj [("ready", .str "RPC connection to neovim is ready")])])] }) := by
  constructor
  · intro err message w h _
    refine ⟨?_, error_message_ne_ready _⟩
    cases err <;>
      simp_all [onConnect, getProp, callIdent_notify, notify_str, Outcome.andThen,
        Outcome.done, Outcome.throw]
  · intro w
    rfl

/-- C5 at the error with message "boom", right after the script started: the
one message sent is the text
`{"system":{"error":"Failed to establish RPC connection to neovim: boom"}}`,
and the callback ends with the TypeError of `api.on`. -/
theorem ready_only_on_successful_handshake_witness :
    getProp (.obj [("message", .str "boom")]) "message" = .ok (.str "boom") ∧
    (JSValue.str "boom" = .undefined ∨ ∃ s : String, JSValue.str "boom" = .str s) ∧
    (onConnect (.obj [("message", .str "boom")]) .undefined
        (main (World.initial ""))).world.sent =
      [.str ("\x7b\"system\":\x7b\"error\":" ++
          "\"Failed to establish RPC connection to neovim: boom\"\x7d\x7d")] ∧
    (onConnect (.obj [("message", .str "boom")]) .undefined
        (main (World.initial ""))).thrown =
      some (.typeError "Cannot read property on of undefined") :=
  ⟨rfl, Or.inr ⟨"boom", rfl⟩,
    by
      rw [(ready_only_on_successful_handshake.1 (.obj [("message", .str "boom")])
        (.str "boom") (main (World.initial "")) rfl (Or.inr ⟨"boom", rfl⟩)).1]
      rfl,
    by
      rw [(ready_only_on_successful_handshake.1 (.obj [("message", .str "boom")])
        (.str "boom") (main (World.initial "")) rfl (Or.inr ⟨"boom", rfl⟩)).1]
      rfl⟩

/-- The connection callback with the error `[0, "boom"]`, an array, which has
no `message`: the payload ends in `undefined`. -/
theorem onConnect_array_error (w : World) :
    onConnect (.arr [.num 0, .str "boom"]) .undefined w =
      .throw { w with sent := w.sent ++
        [JSON.stringify (.obj [("system", .obj [("error",
          .str "Failed to establish RPC connection to neovim: undefined")])])] }
        (.typeError "Cannot read property on of undefined") :=
  rfl

/-- The error branch of the connection callback does not return: called with
an error and the client object together, the callback reports the error and
goes on to register the listeners and to send the ready notification. -/
theorem connect_error_still_sends_ready :
    (onConnect (.obj [("message", .str "boom")]) .client (main (World.initial ""))).world.sent =
      [.str ("\x7b\"system\":\x7b\"error\":" ++
          "\"Failed to establish RPC connection to neovim: boom\"\x7d\x7d"),
       .str "\x7b\"system\":\x7b\"ready\":\"RPC connection to neovim is ready\"\x7d\x7d"] ∧
    (onConnect (.obj [("message", .str "boom")]) .client
      (main (World.initial ""))).thrown = none :=
  ⟨rfl, rfl⟩

theorem nvimEmit_error (err : JSValue) (w : World)
    (hw : w.nvimListeners = [("error", .onError)]) :
    nvimEmit (.error err) w = onSpawnError err w := by
  simp only [nvimEmit, hw, NvimEvent.name]
  exact andThen_finish _

theorem nvimEmit_exit (code signal : JSValue) (w : World)
    (hw : w.nvimListeners = [("error", .onError)]) :
    nvimEmit (.exit code signal) w = .done w := by
  simp [nvimEmit, hw, NvimEvent.name, runAll]

/-- C6, as stated, fails: when the child process exits with code 1 after a
successful connection, no listener runs and nothing is sent; the one message
sent so far stays the ready notification. -/
theorem abnormal_exit_sends_nothing :
    nvimEmit (.exit (.num 1) .null) (connected "") = .done (connected "") ∧
    (nvimEmit (.exit (.num 1) .null) (connected "")).world.sent =
      [.str "\x7b\"system\":\x7b\"ready\":\"RPC connection to neovim is ready\"\x7d\x7d"] :=
  ⟨nvimEmit_exit _ _ _ rfl, rfl⟩

/-- C6, amended: in every world in which the listeners of the child process
are the ones the script registers, a spawn error with message `m` makes the
bridge send exactly one message, the system/error notification whose payload
is "Failed to spawn neovim process: " followed by `m`, and an exit of the child
process, whatever its code and signal, changes nothing and sends nothing. -/
theorem spawn_error_reported_exit_ignored (w : World) (err : JSValue) (m : String)
    (hw : w.nvimListeners = [("error", .onError)])
    (hm : getProp err "message" = .ok (.str m)) :
    nvimEmit (.error err) w =
      .done { w with sent := w.sent ++
        [JSON.stringify (.obj [("system",
          .obj [("error", .str ("Failed to spawn neovim process: " ++ m))])])] } ∧
    (∀ code signal : JSValue, nvimEmit (.exit code signal) w = .done w) := by
  constructor
  · rw [nvimEmit_error err w hw]
    simp only [onSpawnError, hm, callIdent_notify]
    rfl
  · intro code signal
    exact nvimEmit_exit code signal w hw

/-- C6, amended, once the script has run: the spawn error `ENOENT` is reported
with the text `{"system":{"error":"Failed to spawn neovim process: ENOENT"}}`. -/
theorem spawn_error_reported_exit_ignored_witness :
    (main (World.initial "")).nvimListeners = [("error", .onError)] ∧
    getProp (.obj [("message", .str "ENOENT")]) "message" = .ok (.str "ENOENT") ∧
    (nvimEmit (.error (.obj [("message", .str "ENOENT")])) (main (World.initial ""))).world.sent =
      [.str "\x7b\"system\":\x7b\"error\":\"Failed to spawn neovim process: ENOENT\"\x7d\x7d"] ∧
    nvimEmit (.exit (.num 1) .null) (main (World.initial "")) = .done (main (World.initial "")) :=
  ⟨rfl, rfl,
    by
      rw [(spawn_error_reported_exit_ignored (main (World.initial ""))
        (.obj [("message", .str "ENOENT")]) "ENOENT" rfl rfl).1]
      rfl,
    (spawn_error_reported_exit_ignored (main (World.initial ""))
      (.obj [("message", .str "ENOENT")]) "ENOENT" rfl rfl).2 (.num 1) .null⟩
/-! ## C9: request ids -/

theorem Session.fresh_step (s : Session) (op : SessionOp) (h : s.Fresh) :
    (s.step op).Fresh := by
  obtain ⟨hd, hb⟩ := h
  cases op with
  | call method params =>
    cases hs : s.state with
    | closed =>
      simp only [Session.step, Session.call, hs]
      exact ⟨hd, hb⟩
    | connecting =>
      simp only [Session.step, Session.call, hs, Session.Fresh, Session.assignedIds,
        List.map_append, List.map_cons, List.map_nil]
      refine ⟨?_, ?_⟩
      · rw [List.nodup_append]
        refine ⟨hd, List.nodup_singleton _, ?_⟩
        intro a ha hmem
        rw [List.mem_singleton] at hmem
        exact absurd (hb a ha) (by omega)
      · intro id hid
        rw [List.mem_append, List.mem_singleton] at hid
        rcases hid with hid | hid
        · exact Nat.lt_succ_of_lt (hb id hid)
        · omega
    | ready =>
      simp only [Session.step, Session.call, hs, Session.Fresh, Session.assignedIds,
        List.map_append, List.map_cons, List.map_nil]
      refine ⟨?_, ?_⟩
      · rw [List.nodup_append]
        refine ⟨hd, List.nodup_singleton _, ?_⟩
        intro a ha hmem
        rw [List.mem_singleton] at hmem
        exact absurd (hb a ha) (by omega)
      · intro id hid
        rw [List.mem_append, List.mem_singleton] at hid
        rcases hid with hid | hid
        · exact Nat.lt_succ_of_lt (hb id hid)
        · omega
  | response id =>
    by_cases hmem : id ∈ s.outstanding
    · simp only [Session.step, hmem, if_true]
      exact ⟨hd, hb⟩
    · simp only [Session.step, hmem, if_false]
      exact ⟨hd, hb⟩
  | handshake =>
    cases hs : s.state
    · simp only [Session.step, hs]
      exact ⟨hd, hb⟩
    · simp only [Session.step, hs]
      exact ⟨hd, hb⟩
    · simp only [Session.step, hs]
      exact ⟨hd, hb⟩
  | close => exact ⟨hd, hb⟩

theorem Session.fresh_run (ops : List SessionOp) (s : Session) (h : s.Fresh) :
    (s.run ops).Fresh := by
  induction ops generalizing s with
  | nil => exact h
  | cons op rest ih => exact ih (s.step op) (Session.fresh_step s op h)

/-- C9: for every sequence of operations on a new session, calls interleaved
in any way with responses, the handshake and the close, the ids of the
Requests the session has sent are pairwise distinct; and on a session that is
not closed every call succeeds, returns the id it assigned and sends the
Request with that id, so `n` calls assign `n` ids. -/
theorem call_ids_pairwise_distinct :
    (∀ ops : List SessionOp, (Session.fresh.run ops).assignedIds.Nodup) ∧
    (∀ (s : Session) (method : String) (params : List JSValue), s.state ≠ .closed →
      ∃ s1 : Session, s.call method params = .ok (s.counter, s1) ∧
        s1.assignedIds = s.assignedIds ++ [s.counter]) := by
  constructor
  · intro ops
    exact (Session.fresh_run ops Session.fresh
      ⟨List.nodup_nil, by simp [Session.fresh, Session.assignedIds]⟩).1
  · intro s method params hs
    cases h : s.state with
    | closed => exact absurd h hs
    | connecting =>
      simp only [Session.call, h]
      exact ⟨_, rfl, by simp [Session.assignedIds]⟩
    | ready =>
      simp only [Session.call, h]
      exact ⟨_, rfl, by simp [Session.assignedIds]⟩

/-- C9 on three calls, the second and third made while the first is
outstanding and a response arriving in between: the ids are 0, 1 and 2. -/
theorem call_ids_pairwise_distinct_witness :
    Session.fresh.state ≠ .closed ∧
    (Session.fresh.run [.call "a" [], .call "b" [], .response 0, .call "c" []]).assignedIds
      = [0, 1, 2] ∧
    (Session.fresh.run
      [.call "a" [], .call "b" [], .response 0, .call "c" []]).assignedIds.Nodup ∧
    (∃ s1 : Session, Session.fresh.call "a" [] = .ok (0, s1) ∧ s1.assignedIds = [0]) :=
  ⟨by decide, rfl,
    call_ids_pairwise_distinct.1 [.call "a" [], .call "b" [], .response 0, .call "c" []],
    call_ids_pairwise_distinct.2 Session.fresh "a" [] (by decide)⟩

end ElmIde
